import Mathlib

/-!
Verification of the Uptime-bot monitoring engine (src/bot.py and
src/api_server.py) against its natural-language specification.

The Python code is shallowly embedded: dictionaries become structures,
the MongoDB websites collection becomes an association list keyed by the
ObjectId (modelled as a Nat, since ObjectIds are unique and never reused),
Python ints become Nat or Int, and the float uptime percentage is modelled
by exact rational arithmetic over Rat. Network and exception behaviour is
made explicit: a probe attempt is an abstract event (an HTTP response, a
timeout, or some other transport error carrying the Python str of the
exception), and code points that may raise take the raised condition as an
explicit argument.
-/

namespace UptimeBot

/-- Website status. The source stores the strings "up" and "down"; the model
uses a two-value inductive type. -/
inductive Status
  | up
  | down
deriving DecidableEq, Repr

/-- Result dictionary produced by `check_website` in both src/bot.py and
src/api_server.py: keys status, status_code, response_time, checked_at,
error. The checked_at datetime is modelled as an abstract Nat timestamp. -/
structure CheckOutcome where
  status : Status
  status_code : Nat
  response_time : Nat
  checked_at : Nat
  error : Option String
deriving DecidableEq, Repr

/-- Outcome of one network request attempt, as seen by the try/except
structure of `check_website`: either the server replied with some HTTP
status code (after redirects), or the 10-second timeout fired
(asyncio.TimeoutError), or some other exception was raised. For the two
exception cases the argument is the Python `str(e)` of the exception
(for a bare asyncio.TimeoutError this is the empty string). -/
inductive ProbeEvent
  | response (code : Nat)
  | timeout (msg : String)
  | transportError (msg : String)
deriving DecidableEq, Repr

/-- `UptimeMonitor.check_website` from src/bot.py lines 56-86. The elapsed
milliseconds `rt` and the timestamp `now` are explicit inputs. The function
is total: every probe event yields a CheckOutcome, no exception escapes.
The except clause for asyncio.TimeoutError precedes the generic except
clause, so a timeout gets the literal error string "Timeout". -/
def bot_check_website (ev : ProbeEvent) (rt now : Nat) : CheckOutcome :=
  match ev with
  | .response code =>
      { status := if code < 500 then .up else .down
        status_code := code
        response_time := rt
        checked_at := now
        error := none }
  | .timeout _ =>
      { status := .down
        status_code := 0
        response_time := rt
        checked_at := now
        error := some ("Timeout") }
  | .transportError msg =>
      { status := .down
        status_code := 0
        response_time := rt
        checked_at := now
        error := some msg }

/-- `check_website` from src/api_server.py lines 75-97. Unlike the bot
version it has a single generic `except Exception` clause, so a timeout is
handled exactly like any other exception: error = str(e). -/
def api_check_website (ev : ProbeEvent) (rt now : Nat) : CheckOutcome :=
  match ev with
  | .response code =>
      { status := if code < 500 then .up else .down
        status_code := code
        response_time := rt
        checked_at := now
        error := none }
  | .timeout msg =>
      { status := .down
        status_code := 0
        response_time := rt
        checked_at := now
        error := some msg }
  | .transportError msg =>
      { status := .down
        status_code := 0
        response_time := rt
        checked_at := now
        error := some msg }

/-- A document of the websites collection. Fields follow the dictionary
built at creation (src/bot.py lines 209-223, src/api_server.py lines
143-157) and updated after each check. added_at and last_checked are
abstract timestamps; uptime_percentage is a Python float modelled as an
exact rational. -/
structure Website where
  user_id : Int
  url : String
  interval : String
  interval_seconds : Nat
  added_at : Nat
  status : Status
  last_checked : Nat
  last_status_code : Nat
  last_response_time : Nat
  uptime_percentage : Rat
  total_checks : Nat
  successful_checks : Nat
  notifications_enabled : Bool
deriving DecidableEq, Repr

/-- The website_data dictionary persisted at target creation. Identical in
the two creation paths: `handle_interval_selection` (src/bot.py lines
209-223) and `add_website` (src/api_server.py lines 143-157). Note that
uptime_percentage is the literal 100.0 regardless of the initial check
result, while successful_checks is conditional on it. -/
def newWebsiteRecord (uid : Int) (url : String) (intervalKey : String)
    (intervalSeconds : Nat) (added : Nat) (result : CheckOutcome) : Website :=
  { user_id := uid
    url := url
    interval := intervalKey
    interval_seconds := intervalSeconds
    added_at := added
    status := result.status
    last_checked := result.checked_at
    last_status_code := result.status_code
    last_response_time := result.response_time
    uptime_percentage := 100
    total_checks := 1
    successful_checks := if result.status = .up then 1 else 0
    notifications_enabled := true }

/-- The counter update and $set document computed by one cycle of
`monitor_website` (src/bot.py lines 331-353): total_checks increments,
successful_checks increments when the check came back up, and
uptime_percentage is recomputed as successful_checks / total_checks * 100
from the new counters. The $set leaves user_id, url, interval fields and
notifications_enabled untouched. -/
def monitorApplyCheck (site : Website) (result : CheckOutcome) : Website :=
  let total_checks := site.total_checks + 1
  let successful_checks :=
    site.successful_checks + (if result.status = .up then 1 else 0)
  let uptime_percentage : Rat :=
    ((successful_checks : Rat) / (total_checks : Rat)) * 100
  { site with
    status := result.status
    last_checked := result.checked_at
    last_status_code := result.status_code
    last_response_time := result.response_time
    uptime_percentage := uptime_percentage
    total_checks := total_checks
    successful_checks := successful_checks }

/-- The counter update and $set document computed by `manual_check`
(src/api_server.py lines 347-368); textually the same computation as the
periodic cycle update in `monitor_website`. -/
def manualApplyCheck (site : Website) (result : CheckOutcome) : Website :=
  let total_checks := site.total_checks + 1
  let successful_checks :=
    site.successful_checks + (if result.status = .up then 1 else 0)
  let uptime_percentage : Rat :=
    ((successful_checks : Rat) / (total_checks : Rat)) * 100
  { site with
    status := result.status
    last_checked := result.checked_at
    last_status_code := result.status_code
    last_response_time := result.response_time
    uptime_percentage := uptime_percentage
    total_checks := total_checks
    successful_checks := successful_checks }

/-- How one iteration of the while loop in `monitor_website` (src/bot.py
lines 320-393) can end. The whole while loop sits inside a single
try/except: the generic except clause at line 392 logs the error and the
coroutine then returns, so an exception escaping the loop body ends the
task. `recordMissing` is the `break` at line 327; `nextCycle` carries the
record the cycle wrote and whether a status-change message was actually
delivered. -/
inductive CycleEnd
  | recordMissing
  | loopError (msg : String)
  | nextCycle (stored : Website) (delivered : Bool)
deriving DecidableEq, Repr

/-- One iteration of the `monitor_website` loop. `record` is what find_one
returns at the top of the cycle; `persistError` is some message when the
update_one call raises; `notifyFails` says whether bot.send_message raises.
The send_message call sits in its own try/except whose handler is `pass`
(lines 385-388), so a notification failure never ends the cycle, while a
persistence failure propagates to the outer except clause and yields
`loopError`. -/
def monitor_cycle (record : Option Website) (ev : ProbeEvent) (rt now : Nat)
    (persistError : Option String) (notifyFails : Bool) : CycleEnd :=
  match record with
  | none => .recordMissing
  | some site =>
      let result := bot_check_website ev rt now
      let stored := monitorApplyCheck site result
      match persistError with
      | some msg => .loopError msg
      | none =>
          let status_changed := site.status ≠ result.status
          if status_changed ∧ site.notifications_enabled then
            .nextCycle stored (¬ notifyFails)
          else
            .nextCycle stored false

/-- The notification condition of `monitor_website`: status_changed is
computed at line 338 from the snapshot read at the top of the cycle, and
the message is sent at line 356 when it holds together with the
notifications_enabled flag of that snapshot. -/
def monitorCycleNotifies (site : Website) (result : CheckOutcome) : Bool :=
  (decide (site.status ≠ result.status)) && site.notifications_enabled

/-- Applies the $set document of an after-check update_one (src/bot.py
lines 340-353, src/api_server.py lines 355-368) to the current state of
the matched record: exactly the seven listed fields are overwritten with
the computed absolute values, everything else is kept. -/
def setAfterCheck (cur : Website) (nw : Website) : Website :=
  { cur with
    status := nw.status
    last_checked := nw.last_checked
    last_status_code := nw.last_status_code
    last_response_time := nw.last_response_time
    uptime_percentage := nw.uptime_percentage
    total_checks := nw.total_checks
    successful_checks := nw.successful_checks }

/-- One complete manual-check commit against the shared record, split the
way `manual_check` (src/api_server.py lines 325-374) actually touches the
database: `snapshot` is what its find_one read, the new counters are
computed from that snapshot only, and update_one then $sets those absolute
values onto whatever `current` state the record has reached in the
meantime. Concurrency is modelled by letting `snapshot` differ from
`current`. -/
def manualCommit (current snapshot : Website) (result : CheckOutcome) : Website :=
  setAfterCheck current (manualApplyCheck snapshot result)

section Engine

/-- Position of a `monitor_website` loop inside its cycle. `ready` is the
top of the while loop, about to run find_one; `found` holds the snapshot
find_one returned, before the probe; `midCycle` additionally holds the
probe result, before update_one; `stopped` is after the `break` (the
coroutine has returned). -/
inductive LoopPhase
  | ready
  | found (site : Website)
  | midCycle (site : Website) (result : CheckOutcome)
  | stopped
deriving DecidableEq, Repr

/-- Combined state of one target: the persisted record for its id (none
once delete_one has removed it, or before creation) and the phase of its
monitoring loop. -/
structure EngineState where
  record : Option Website
  phase : LoopPhase
deriving DecidableEq, Repr

/-- The atomic events the monitoring loop and the delete endpoint perform
on this state: the defensive find_one at the top of a cycle, the network
probe, the update_one commit, and `delete_website` (src/api_server.py
lines 260-282) removing the record. -/
inductive EngineAct
  | readRecord
  | probe (ev : ProbeEvent) (rt now : Nat)
  | commit
  | deleteTarget
deriving DecidableEq, Repr

/-- Small-step semantics of one target during monitoring. The returned
Bool reports whether this step performed a network probe. readRecord on a
missing record is the `if not site: break` exit (src/bot.py lines 324-327);
commit on a missing record is an update_one that matches nothing — it is
not an upsert, so it cannot recreate the record. Actions that do not apply
in the current phase leave the state unchanged. -/
def engineStep : EngineState → EngineAct → EngineState × Bool
  | ⟨record, .ready⟩, .readRecord =>
      match record with
      | none => (⟨none, .stopped⟩, false)
      | some site => (⟨some site, .found site⟩, false)
  | ⟨record, .found site⟩, .probe ev rt now =>
      (⟨record, .midCycle site (bot_check_website ev rt now)⟩, true)
  | ⟨record, .midCycle site result⟩, .commit =>
      match record with
      | none => (⟨none, .ready⟩, false)
      | some cur =>
          (⟨some (setAfterCheck cur (monitorApplyCheck site result)), .ready⟩, false)
  | ⟨_, phase⟩, .deleteTarget => (⟨none, phase⟩, false)
  | s, _ => (s, false)

/-- Runs a sequence of engine actions, counting how many of them performed
a probe. -/
def engineRun : EngineState → List EngineAct → EngineState × Nat
  | s, [] => (s, 0)
  | s, a :: rest =>
      let step := engineStep s a
      let tail := engineRun step.1 rest
      (tail.1, (if step.2 then 1 else 0) + tail.2)

/-- A target state in which the deletion has been observed (or is about to
be observed at the very next find_one): the record is gone and the loop is
either at the top of a cycle or already stopped. -/
def EngineQuiet (s : EngineState) : Prop :=
  s.record = none ∧ (s.phase = .ready ∨ s.phase = .stopped)

instance (s : EngineState) : Decidable (EngineQuiet s) := by
  unfold EngineQuiet
  infer_instance

end Engine

section Api

/-- The websites collection restricted to the fields the model needs: an
association list from ObjectId (modelled as Nat, unique per document) to
the document. -/
abbrev ApiDb := List (Nat × Website)

/-- Effects a REST endpoint performs besides reading, in order: a network
probe, a database write, a transition-detector evaluation, a notification
send. Used to state which components an endpoint runs. -/
inductive Effect
  | probe
  | persist
  | detect
  | notify
deriving DecidableEq, Repr

/-- find_one with filter on both _id and user_id, as used by get_website,
manual_check and the owner check of update/delete. -/
def find_one_owned (db : ApiDb) (wid : Nat) (uid : Int) : Option Website :=
  (db.find? (fun p => decide (p.1 = wid) && decide (p.2.user_id = uid))).map (·.2)

/-- update_one filtered on _id only (as in manual_check and
monitor_website): overwrites the after-check fields of the first matching
document, if any; never inserts. -/
def update_one_by_id : ApiDb → Nat → Website → ApiDb
  | [], _, _ => []
  | p :: rest, wid, nw =>
      if p.1 = wid then (p.1, setAfterCheck p.2 nw) :: rest
      else p :: update_one_by_id rest wid nw

/-- Response of the manual-check endpoint: either an HTTPException with a
status code and detail, or the success payload whose data is the fresh
check_result dictionary. -/
inductive ManualResp
  | httpError (code : Nat) (detail : String)
  | success (outcome : CheckOutcome)
deriving DecidableEq, Repr

/-- `manual_check` from src/api_server.py lines 325-374, for a valid
ObjectId string. Returns the new database, the response, and the list of
effects performed. When find_one (filtered by _id and user_id) finds
nothing it raises 404 before any probe or write; otherwise it probes,
computes the new counters from the snapshot, $sets them, and returns the
fresh outcome. No transition detection and no notification occur on this
path. -/
def manual_check (db : ApiDb) (wid : Nat) (uid : Int) (ev : ProbeEvent)
    (rt now : Nat) : ApiDb × ManualResp × List Effect :=
  match find_one_owned db wid uid with
  | none => (db, .httpError 404 "Website not found", [])
  | some website =>
      let check_result := api_check_website ev rt now
      let updated := manualApplyCheck website check_result
      (update_one_by_id db wid updated, .success check_result, [.probe, .persist])

/-- The valid_intervals list of `add_website` (src/api_server.py line
120). -/
def valid_intervals : List String :=
  ["10sec", "30sec", "1min", "2min", "3min", "5min", "10min", "15min",
   "30min", "1hour"]

/-- The interval_map dictionary of `add_website` (src/api_server.py lines
137-141); also the INTERVALS table of src/bot.py lines 39-50. -/
def interval_map : List (String × Nat) :=
  [("10sec", 10), ("30sec", 30), ("1min", 60), ("2min", 120), ("3min", 180),
   ("5min", 300), ("10min", 600), ("15min", 900), ("30min", 1800),
   ("1hour", 3600)]

/-- Response of the add-website endpoint. -/
inductive AddResp
  | httpError (code : Nat) (detail : String)
  | success (site : Website)
deriving DecidableEq, Repr

/-- `add_website` from src/api_server.py lines 112-166: validate the
interval, reject a duplicate of the same owner and URL before probing or
writing anything, otherwise run the initial check and insert the new
document. `newId` is the ObjectId Mongo assigns to the insert. -/
def add_website (db : ApiDb) (newId : Nat) (uid : Int) (url : String)
    (interval : String) (ev : ProbeEvent) (rt now : Nat) :
    ApiDb × AddResp × List Effect :=
  if ¬ (valid_intervals.contains interval) then
    (db, .httpError 400 "Invalid interval", [])
  else if db.any (fun p => decide (p.2.user_id = uid) && decide (p.2.url = url)) then
    (db, .httpError 400 "Website already exists", [])
  else
    let check_result := api_check_website ev rt now
    let interval_seconds := ((interval_map.lookup interval).getD 0)
    let site := newWebsiteRecord uid url interval interval_seconds now check_result
    (db ++ [(newId, site)], .success site, [.probe, .persist])

end Api

section ApiKeys

/-- A document of the api_keys collection, restricted to the fields the
key lifecycle uses (created_at, last_used and requests_count are dropped:
they never influence authentication). -/
structure ApiKeyDoc where
  user_id : Int
  api_key : String
  active : Bool
deriving DecidableEq, Repr

/-- The update_many step of `generate_new_api_key` (src/bot.py lines
481-484): every key document of the user, active or not, gets active set
to False. -/
def deactivate_keys (db : List ApiKeyDoc) (uid : Int) : List ApiKeyDoc :=
  db.map (fun k => if k.user_id = uid then { k with active := false } else k)

/-- `generate_api_key` (src/bot.py lines 90-103): inserts one new document
with active = True. The fresh token value is an explicit argument. -/
def generate_api_key (db : List ApiKeyDoc) (uid : Int) (newKey : String) :
    List ApiKeyDoc :=
  db ++ [{ user_id := uid, api_key := newKey, active := true }]

/-- `generate_new_api_key` (src/bot.py lines 473-495), the single handler
behind both the generate and the regenerate buttons: first deactivate all
keys of the user, then insert one new active key. -/
def generate_new_api_key (db : List ApiKeyDoc) (uid : Int) (newKey : String) :
    List ApiKeyDoc :=
  generate_api_key (deactivate_keys db uid) uid newKey

/-- The find_one of `verify_api_key` (src/api_server.py line 59): the
first document whose api_key matches and whose active flag is True. -/
def lookup_active_key (db : List ApiKeyDoc) (key : String) : Option ApiKeyDoc :=
  db.find? (fun k => decide (k.api_key = key) && k.active)

/-- `verify_api_key` (src/api_server.py lines 53-73) reduced to its
authentication decision: a missing or non-Bearer header is a 401, an
unknown or inactive key is a 401, an active key authenticates its owner.
(The last_used / requests_count bookkeeping write is omitted: it does not
affect the decision.) The Bearer prefix handling keeps the source shape:
str.replace removes every occurrence of the prefix. -/
def verify_api_key (db : List ApiKeyDoc) (authorization : Option String) :
    Except Nat Int :=
  match authorization with
  | none => .error 401
  | some auth =>
      if ¬ (auth.startsWith ("Bearer ")) then .error 401
      else
        let api_key := auth.replace ("Bearer ") ("")
        match lookup_active_key db api_key with
        | none => .error 401
        | some keyDoc => .ok keyDoc.user_id

end ApiKeys

/-! Concrete documents used to instantiate the theorems on explicit
inputs. -/

/-- A concrete website document with the given status, notifications flag
and counters; the remaining fields are fixed test data. -/
def sampleSite (st : Status) (en : Bool) (total succ : Nat) : Website :=
  { user_id := 7
    url := "https://example.com"
    interval := "1min"
    interval_seconds := 60
    added_at := 0
    status := st
    last_checked := 0
    last_status_code := 200
    last_response_time := 50
    uptime_percentage := 100
    total_checks := total
    successful_checks := succ
    notifications_enabled := en }

/-- A concrete check result with the given status. -/
def sampleOutcome (st : Status) : CheckOutcome :=
  { status := st
    status_code := 200
    response_time := 50
    checked_at := 0
    error := none }

/-! Theorems settling the claims. -/

/-- Claim C1, counterexample: the record persisted at target creation
after a Down initial probe (here an HTTP 503 response) stores
uptime_percentage = 100 although successful_checks / total_checks * 100
is 0, so the stored percentage does not equal the derived value. -/
theorem creation_uptime_claim_false :
    (newWebsiteRecord 7 ("https://example.com") ("5min") 300 0
        (bot_check_website (.response 503) 50 0)).uptime_percentage ≠
      (((newWebsiteRecord 7 ("https://example.com") ("5min") 300 0
          (bot_check_website (.response 503) 50 0)).successful_checks : Rat) /
        ((newWebsiteRecord 7 ("https://example.com") ("5min") 300 0
          (bot_check_website (.response 503) 50 0)).total_checks : Rat)) * 100 := by
  norm_num [newWebsiteRecord, bot_check_website]
  decide

/-- Claim C1 (amended): every written record satisfies
0 ≤ successful_checks ≤ total_checks; every record written by a check
update (periodic or manual) has uptime_percentage equal to
successful_checks / total_checks * 100 exactly; the record persisted at
creation stores the constant 100.0, which equals the derived value exactly
when the initial probe came back Up. -/
theorem creation_and_update_invariants (uid : Int) (url intervalKey : String)
    (ivs added : Nat) (r : CheckOutcome) (site : Website) (o : CheckOutcome)
    (hs : site.successful_checks ≤ site.total_checks) :
    (newWebsiteRecord uid url intervalKey ivs added r).successful_checks ≤
      (newWebsiteRecord uid url intervalKey ivs added r).total_checks ∧
    (newWebsiteRecord uid url intervalKey ivs added r).uptime_percentage = 100 ∧
    (r.status = .up →
      (((newWebsiteRecord uid url intervalKey ivs added r).successful_checks : Rat) /
        ((newWebsiteRecord uid url intervalKey ivs added r).total_checks : Rat)) * 100 =
      (newWebsiteRecord uid url intervalKey ivs added r).uptime_percentage) ∧
    (monitorApplyCheck site o).successful_checks ≤
      (monitorApplyCheck site o).total_checks ∧
    (monitorApplyCheck site o).uptime_percentage =
      (((monitorApplyCheck site o).successful_checks : Rat) /
        ((monitorApplyCheck site o).total_checks : Rat)) * 100 ∧
    (manualApplyCheck site o).successful_checks ≤
      (manualApplyCheck site o).total_checks ∧
    (manualApplyCheck site o).uptime_percentage =
      (((manualApplyCheck site o).successful_checks : Rat) /
        ((manualApplyCheck site o).total_checks : Rat)) * 100 := by
  refine ⟨?_, rfl, ?_, ?_, rfl, ?_, rfl⟩
  · by_cases h : r.status = Status.up <;> simp [newWebsiteRecord, h]
  · intro hup
    simp [newWebsiteRecord, hup]
  · by_cases h : o.status = Status.up <;> simp [monitorApplyCheck, h] <;> omega
  · by_cases h : o.status = Status.up <;> simp [manualApplyCheck, h] <;> omega

/-- Claim C1, witness: the amended statement instantiated on a concrete
site with 8 successes out of 10 checks and a concrete Up outcome. -/
theorem creation_and_update_invariants_inst :
    (sampleSite .up true 10 8).successful_checks ≤
      (sampleSite .up true 10 8).total_checks ∧
    ((monitorApplyCheck (sampleSite .up true 10 8) (sampleOutcome .up)).uptime_percentage =
      (((monitorApplyCheck (sampleSite .up true 10 8) (sampleOutcome .up)).successful_checks : Rat) /
        ((monitorApplyCheck (sampleSite .up true 10 8) (sampleOutcome .up)).total_checks : Rat)) * 100) :=
  ⟨by decide,
   (creation_and_update_invariants 7 ("https://example.com") ("1min") 60 0
      (sampleOutcome .up) (sampleSite .up true 10 8) (sampleOutcome .up)
      (by decide)).2.2.2.2.1⟩

/-- Claim C2: one application of the after-check update increments
total_checks, increments successful_checks exactly when the outcome is Up,
recomputes uptime_percentage as the new ratio times 100, and the periodic
cycle and the manual check perform the identical update. -/
theorem aggregator_step_spec (site : Website) (o : CheckOutcome) :
    (monitorApplyCheck site o).total_checks = site.total_checks + 1 ∧
    (monitorApplyCheck site o).successful_checks =
      site.successful_checks + (if o.status = .up then 1 else 0) ∧
    (monitorApplyCheck site o).uptime_percentage =
      (((site.successful_checks : Rat) + (if o.status = .up then 1 else 0)) /
        ((site.total_checks : Rat) + 1)) * 100 ∧
    monitorApplyCheck site o = manualApplyCheck site o := by
  refine ⟨rfl, rfl, ?_, rfl⟩
  by_cases h : o.status = Status.up <;> simp [monitorApplyCheck, h]

/-- Claim C3, counterexample: a cycle whose record is still present but
whose persistence step raises ends in loopError, i.e. the monitoring loop
terminates although the record never disappeared and nothing was
cancelled. The try/except of monitor_website wraps the whole while loop,
so the exception ends the coroutine instead of reaching the next cycle. -/
theorem persist_error_terminates_loop :
    monitor_cycle (some (sampleSite .up true 10 8)) (.response 200) 50 0
        (some ("db write failed")) false = .loopError ("db write failed") ∧
    (some (sampleSite .up true 10 8) : Option Website) ≠ none := by
  exact ⟨rfl, by decide⟩

/-- Claim C3 (amended): an exception raised while notifying is swallowed
by the inner try/except and the loop proceeds to its next scheduled cycle;
an unexpected exception raised while persisting is logged by the outer
except clause and terminates the monitoring loop. Hence a loop exits
either via the record-missing check or via a logged persistence error, and
a notification failure alone never ends it. -/
theorem cycle_error_handling (record : Option Website) (ev : ProbeEvent)
    (rt now : Nat) (notifyFails : Bool) (pe : Option String) :
    (∀ msg, monitor_cycle record ev rt now none notifyFails ≠ .loopError msg) ∧
    (∀ site msg, record = some site →
      monitor_cycle record ev rt now (some msg) notifyFails = .loopError msg) ∧
    monitor_cycle none ev rt now pe notifyFails = .recordMissing := by
  refine ⟨?_, ?_, rfl⟩
  · intro msg
    cases record with
    | none => simp [monitor_cycle]
    | some site =>
        simp only [monitor_cycle]
        split <;> simp
  · intro site msg h
    subst h
    rfl

/-- Claim C3, witness: the amended statement instantiated on a concrete
record and a concrete persistence failure. -/
theorem cycle_error_handling_inst :
    (some (sampleSite .up true 10 8) : Option Website) = some (sampleSite .up true 10 8) ∧
    monitor_cycle (some (sampleSite .up true 10 8)) (.response 200) 50 0
        (some ("boom")) true = .loopError ("boom") :=
  ⟨rfl,
   (cycle_error_handling (some (sampleSite .up true 10 8)) (.response 200) 50 0
      true (some ("boom"))).2.1 (sampleSite .up true 10 8) ("boom") rfl⟩

/-- Claim C4, counterexample: in the api_server prober a timeout is
handled by the generic except clause, so its outcome is identical to that
of any other transport error with the same exception text, and its error
field is not the "Timeout" tag; the error field therefore does not
distinguish timeout from other transport errors for this prober. -/
theorem api_probe_timeout_not_distinguished :
    api_check_website (.timeout ("x")) 50 0 =
      api_check_website (.transportError ("x")) 50 0 ∧
    (api_check_website (.timeout ("x")) 50 0).error ≠ some ("Timeout") := by
  decide

/-- Claim C4 (amended): both probers are total (no exception reaches the
caller), classify a response as Up exactly when its status code is below
500 and everything else as Down, put status code 0 and a populated error
field on every failure, and record the measured response time on every
outcome. The bot prober tags a timeout with the literal "Timeout" while
other transport errors carry the exception text; the api_server prober has
no timeout clause, so there a timeout carries the exception text like any
other transport error. -/
theorem probe_classification (ev : ProbeEvent) (code rt now : Nat) (msg : String) :
    ((bot_check_website ev rt now).response_time = rt ∧
     (api_check_website ev rt now).response_time = rt) ∧
    ((bot_check_website ev rt now).status = .up ↔
      ∃ c, ev = .response c ∧ c < 500) ∧
    ((api_check_website ev rt now).status = .up ↔
      ∃ c, ev = .response c ∧ c < 500) ∧
    bot_check_website (.response code) rt now =
      { status := if code < 500 then .up else .down
        status_code := code
        response_time := rt
        checked_at := now
        error := none } ∧
    api_check_website (.response code) rt now =
      { status := if code < 500 then .up else .down
        status_code := code
        response_time := rt
        checked_at := now
        error := none } ∧
    bot_check_website (.timeout msg) rt now =
      { status := .down
        status_code := 0
        response_time := rt
        checked_at := now
        error := some ("Timeout") } ∧
    bot_check_website (.transportError msg) rt now =
      { status := .down
        status_code := 0
        response_time := rt
        checked_at := now
        error := some msg } ∧
    api_check_website (.timeout msg) rt now =
      { status := .down
        status_code := 0
        response_time := rt
        checked_at := now
        error := some msg } ∧
    api_check_website (.transportError msg) rt now =
      { status := .down
        status_code := 0
        response_time := rt
        checked_at := now
        error := some msg } := by
  refine ⟨⟨?_, ?_⟩, ?_, ?_, rfl, rfl, rfl, rfl, rfl, rfl⟩
  · cases ev <;> rfl
  · cases ev <;> rfl
  · cases ev with
    | response c =>
        simp only [bot_check_website]
        constructor
        · intro h
          refine ⟨c, rfl, ?_⟩
          by_contra hc
          simp [if_neg hc] at h
        · rintro ⟨c2, hc2, hlt⟩
          cases hc2
          simp [if_pos hlt]
    | timeout m => simp [bot_check_website]
    | transportError m => simp [bot_check_website]
  · cases ev with
    | response c =>
        simp only [api_check_website]
        constructor
        · intro h
          refine ⟨c, rfl, ?_⟩
          by_contra hc
          simp [if_neg hc] at h
        · rintro ⟨c2, hc2, hlt⟩
          cases hc2
          simp [if_pos hlt]
    | timeout m => simp [api_check_website]
    | transportError m => simp [api_check_website]

/-- Claim C5: the notification decision of the monitoring cycle is true
exactly when the status read before the update differs from the fresh
status and notifications are enabled, and the four tabulated cases of the
specification hold. -/
theorem transition_detector_spec (site : Website) (result : CheckOutcome) :
    (monitorCycleNotifies site result = true ↔
      (site.status ≠ result.status ∧ site.notifications_enabled = true)) ∧
    monitorCycleNotifies (sampleSite .up true 1 1) (sampleOutcome .up) = false ∧
    monitorCycleNotifies (sampleSite .up true 1 1) (sampleOutcome .down) = true ∧
    monitorCycleNotifies (sampleSite .up false 1 1) (sampleOutcome .down) = false ∧
    monitorCycleNotifies (sampleSite .down true 1 1) (sampleOutcome .up) = true := by
  refine ⟨?_, by decide, by decide, by decide, by decide⟩
  simp [monitorCycleNotifies]

/-- Claim C6 is violated by the code: the manual check reads the counters
with find_one and then writes back absolute values with a $set, so two
manual checks that both read before either writes leave total_checks at 1
instead of 2; the increment of whichever check wrote first is lost. The
sequential schedule, in which the second check reads the state the first
one wrote, does reach 2. -/
theorem concurrent_manual_checks_lose_update :
    (manualCommit (manualCommit (sampleSite .up true 0 0) (sampleSite .up true 0 0)
          (sampleOutcome .up))
        (sampleSite .up true 0 0) (sampleOutcome .up)).total_checks = 1 ∧
    (manualCommit (manualCommit (sampleSite .up true 0 0) (sampleSite .up true 0 0)
          (sampleOutcome .up))
        (manualCommit (sampleSite .up true 0 0) (sampleSite .up true 0 0)
          (sampleOutcome .up))
        (sampleOutcome .up)).total_checks = 2 := by
  exact ⟨rfl, rfl⟩

/-- Helper: no engine step can recreate a deleted record; in particular an
update_one commit against a missing record matches nothing. -/
theorem engineStep_none_record (phase : LoopPhase) (a : EngineAct) :
    (engineStep ⟨none, phase⟩ a).1.record = none := by
  cases a <;> cases phase <;> simp [engineStep]

/-- Helper: once the record is gone and the loop sits at the top of a
cycle or has stopped, every engine step keeps it there and performs no
probe. -/
theorem engineStep_quiet (s : EngineState) (a : EngineAct)
    (h : EngineQuiet s) :
    EngineQuiet (engineStep s a).1 ∧ (engineStep s a).2 = false := by
  obtain ⟨record, phase⟩ := s
  obtain ⟨h1, h2⟩ := h
  simp only at h1
  subst h1
  rcases h2 with h2 | h2 <;> simp only at h2 <;> subst h2 <;>
    cases a <;> simp [engineStep, EngineQuiet]

/-- Helper: over any sequence of engine actions, a quiet state stays
quiet and no probe is ever counted. -/
theorem engineRun_quiet (acts : List EngineAct) :
    ∀ s : EngineState, EngineQuiet s →
      EngineQuiet (engineRun s acts).1 ∧ (engineRun s acts).2 = 0 := by
  induction acts with
  | nil => intro s h; exact ⟨h, rfl⟩
  | cons a rest ih =>
      intro s h
      obtain ⟨hq, hp⟩ := engineStep_quiet s a h
      obtain ⟨hq2, hn2⟩ := ih (engineStep s a).1 hq
      simp only [engineRun]
      exact ⟨hq2, by simp [hp, hn2]⟩

/-- Claim C7: after deletion no store update for the target id succeeds
(the record stays missing, an update cannot recreate it), the loop at the
top of its next cycle observes the missing record and moves to the Stopped
state without probing, and from then on, over any sequence of actions, the
record stays missing and no probe is ever performed again. -/
theorem deletion_stops_loop (record : Option Website) (phase : LoopPhase)
    (a : EngineAct) (acts : List EngineAct) :
    (record = none → (engineStep ⟨record, phase⟩ a).1.record = none) ∧
    (record = none → phase = .ready →
      engineStep ⟨record, phase⟩ .readRecord = (⟨none, .stopped⟩, false)) ∧
    (EngineQuiet ⟨record, phase⟩ →
      EngineQuiet (engineStep ⟨record, phase⟩ a).1 ∧
      (engineStep ⟨record, phase⟩ a).2 = false) ∧
    (EngineQuiet ⟨record, phase⟩ →
      (engineRun ⟨record, phase⟩ acts).1.record = none ∧
      (engineRun ⟨record, phase⟩ acts).2 = 0) := by
  refine ⟨?_, ?_, engineStep_quiet ⟨record, phase⟩ a, ?_⟩
  · intro h
    subst h
    exact engineStep_none_record phase a
  · intro h hph
    subst h
    subst hph
    rfl
  · intro h
    obtain ⟨hq, hn⟩ := engineRun_quiet acts ⟨record, phase⟩ h
    exact ⟨hq.1, hn⟩

/-- Claim C7, witness: starting from a just-deleted target whose loop is
at the top of a cycle, a read, a probe attempt and a commit leave the
record missing, reach Stopped and perform zero probes. -/
theorem deletion_stops_loop_inst :
    EngineQuiet ⟨none, .ready⟩ ∧
    (engineRun ⟨none, .ready⟩
        [.readRecord, .probe (.response 200) 5 0, .commit]).1.record = none ∧
    (engineRun ⟨none, .ready⟩
        [.readRecord, .probe (.response 200) 5 0, .commit]).2 = 0 :=
  ⟨by decide,
   (deletion_stops_loop none .ready .readRecord
       [.readRecord, .probe (.response 200) 5 0, .commit]).2.2.2 (by decide)⟩

/-- Claim C8, counterexample: a manual check against an existing owned
target whose status genuinely flips (stored Up, probe yields an HTTP 503
Down) still performs no transition-detector evaluation and no notification
effect, so the claim that the manual check runs the Transition Detector
exactly once is false. -/
theorem manual_check_skips_detector :
    (manual_check [(1, sampleSite .up true 10 8)] 1 7 (.response 503) 40 9).2.2.count
        .detect = 0 ∧
    (manual_check [(1, sampleSite .up true 10 8)] 1 7 (.response 503) 40 9).2.2.count
        .notify = 0 ∧
    (manual_check [(1, sampleSite .up true 10 8)] 1 7 (.response 503) 40 9).2.1 =
      .success (api_check_website (.response 503) 40 9) ∧
    (sampleSite .up true 10 8).status ≠ (api_check_website (.response 503) 40 9).status := by
  refine ⟨rfl, rfl, rfl, by decide⟩

/-- Claim C8 (amended): for an existing target of the caller the manual
check runs the prober and the persistence update exactly once against the
current snapshot and returns the fresh outcome, with no transition
detection and no notification; for a missing id or one owned by someone
else it returns 404 and leaves the stored state unchanged. -/
theorem manual_check_behavior (db : ApiDb) (wid : Nat) (uid : Int)
    (ev : ProbeEvent) (rt now : Nat) :
    (find_one_owned db wid uid = none →
      manual_check db wid uid ev rt now =
        (db, .httpError 404 ("Website not found"), [])) ∧
    (∀ site, find_one_owned db wid uid = some site →
      manual_check db wid uid ev rt now =
        (update_one_by_id db wid (manualApplyCheck site (api_check_website ev rt now)),
         .success (api_check_website ev rt now), [.probe, .persist])) := by
  constructor
  · intro h
    simp [manual_check, h]
  · intro site h
    simp [manual_check, h]

/-- Claim C8, witness: the amended statement instantiated on a one-entry
collection owned by user 7. -/
theorem manual_check_behavior_inst :
    find_one_owned [(1, sampleSite .up true 10 8)] 1 7 = some (sampleSite .up true 10 8) ∧
    manual_check [(1, sampleSite .up true 10 8)] 1 7 (.response 200) 5 0 =
      (update_one_by_id [(1, sampleSite .up true 10 8)] 1
         (manualApplyCheck (sampleSite .up true 10 8) (api_check_website (.response 200) 5 0)),
       .success (api_check_website (.response 200) 5 0), [.probe, .persist]) :=
  ⟨rfl,
   (manual_check_behavior [(1, sampleSite .up true 10 8)] 1 7 (.response 200) 5 0).2
     (sampleSite .up true 10 8) rfl⟩

/-- Claim C9: adding a website whose URL the authenticated user already
monitors fails with HTTP 400 and detail Website already exists, before any
probe is issued and before any document is inserted; the collection is
returned unchanged and the effect list is empty. -/
theorem duplicate_website_rejected (db : ApiDb) (newId : Nat) (uid : Int)
    (url interval : String) (ev : ProbeEvent) (rt now : Nat)
    (hv : valid_intervals.contains interval = true)
    (hd : ∃ p ∈ db, p.2.user_id = uid ∧ p.2.url = url) :
    add_website db newId uid url interval ev rt now =
      (db, .httpError 400 ("Website already exists"), []) := by
  have h2 : db.any (fun p => decide (p.2.user_id = uid) && decide (p.2.url = url)) = true := by
    obtain ⟨p, hp, h1, h2⟩ := hd
    exact List.any_eq_true.mpr ⟨p, hp, by simp [h1, h2]⟩
  have hm : interval ∈ valid_intervals := by simpa using hv
  simp [add_website, hm, h2]

/-- Claim C9, witness: the duplicate rejection instantiated on a
collection already holding the URL for user 7. -/
theorem duplicate_website_rejected_inst :
    valid_intervals.contains ("1min") = true ∧
    (∃ p ∈ [(1, sampleSite .up true 10 8)], p.2.user_id = 7 ∧
      p.2.url = ("https://example.com")) ∧
    add_website [(1, sampleSite .up true 10 8)] 2 7 ("https://example.com") ("1min")
        (.response 200) 5 0 =
      ([(1, sampleSite .up true 10 8)], .httpError 400 ("Website already exists"), []) :=
  ⟨by decide,
   ⟨(1, sampleSite .up true 10 8), by decide, rfl, rfl⟩,
   duplicate_website_rejected [(1, sampleSite .up true 10 8)] 2 7
     ("https://example.com") ("1min") (.response 200) 5 0 (by decide)
     ⟨(1, sampleSite .up true 10 8), by decide, rfl, rfl⟩⟩

/-- Helper: after the update_many deactivation, no key document of the
user survives an active-keys filter. -/
theorem filter_active_deactivated (db : List ApiKeyDoc) (uid : Int) :
    (deactivate_keys db uid).filter (fun k => decide (k.user_id = uid) && k.active) = [] := by
  induction db with
  | nil => rfl
  | cons k rest ih =>
      simp only [deactivate_keys, List.map_cons, List.filter_cons] at ih ⊢
      by_cases h : k.user_id = uid
      · simpa [h] using ih
      · simpa [h] using ih

/-- Helper: after a regeneration, looking up the previous key of the user
finds no active document, provided the old key string belonged only to
this user and differs from the fresh one. -/
theorem lookup_after_regenerate (db : List ApiKeyDoc) (uid : Int)
    (newKey oldKey : String)
    (hold : ∀ k ∈ db, k.api_key = oldKey → k.user_id = uid)
    (hne : oldKey ≠ newKey) :
    lookup_active_key (generate_new_api_key db uid newKey) oldKey = none := by
  apply List.find?_eq_none.mpr
  intro k hk
  simp only [generate_new_api_key, generate_api_key, deactivate_keys,
    List.mem_append, List.mem_map, List.mem_singleton] at hk
  rcases hk with ⟨k0, hk0, hfk⟩ | hk
  · by_cases h : k0.user_id = uid
    · rw [if_pos h] at hfk
      subst hfk
      simp
    · rw [if_neg h] at hfk
      subst hfk
      have : ¬ k0.api_key = oldKey := fun he => h (hold k0 hk0 he)
      simp [this]
  · subst hk
    simpa using Ne.symm hne

/-- Claim C10: regenerating deactivates every key of the user and inserts
exactly one new active key, so afterwards the active keys of that user are
exactly the fresh one; the regenerated-away key no longer matches the
active-key lookup, so later requests carrying it get 401; and the
authentication decision only ever accepts a key whose stored document is
marked active. -/
theorem api_key_regeneration_spec (db : List ApiKeyDoc) (uid : Int)
    (newKey oldKey : String)
    (hold : ∀ k ∈ db, k.api_key = oldKey → k.user_id = uid)
    (hne : oldKey ≠ newKey) :
    (generate_new_api_key db uid newKey).filter
        (fun k => decide (k.user_id = uid) && k.active) =
      [{ user_id := uid, api_key := newKey, active := true }] ∧
    lookup_active_key (generate_new_api_key db uid newKey) oldKey = none ∧
    (∀ (db2 : List ApiKeyDoc) (auth : Option String) (uid2 : Int),
      verify_api_key db2 auth = .ok uid2 →
      ∃ k ∈ db2, k.active = true ∧ k.user_id = uid2) := by
  refine ⟨?_, lookup_after_regenerate db uid newKey oldKey hold hne, ?_⟩
  · simp only [generate_new_api_key, generate_api_key, List.filter_append,
      filter_active_deactivated]
    simp
  · intro db2 auth uid2 hv
    cases auth with
    | none => simp [verify_api_key] at hv
    | some a =>
        simp only [verify_api_key] at hv
        split at hv
        · simp at hv
        · split at hv
          · simp at hv
          · rename_i keyDoc hl
            simp only [lookup_active_key] at hl
            simp only [Except.ok.injEq] at hv
            have hmem : keyDoc ∈ db2 := List.mem_of_find?_eq_some hl
            have hpred := List.find?_some hl
            simp only [Bool.and_eq_true, decide_eq_true_eq] at hpred
            exact ⟨keyDoc, hmem, hpred.2, hv⟩

/-- Claim C10, witness: regeneration for user 7 on a store holding an old
key of user 7 and an unrelated key of user 5. -/
theorem api_key_regeneration_inst :
    (∀ k ∈ [ApiKeyDoc.mk 7 ("oldkey") true, ApiKeyDoc.mk 5 ("otherkey") true],
      k.api_key = ("oldkey") → k.user_id = 7) ∧
    ("oldkey") ≠ ("newkey") ∧
    lookup_active_key
        (generate_new_api_key [ApiKeyDoc.mk 7 ("oldkey") true, ApiKeyDoc.mk 5 ("otherkey") true]
          7 ("newkey")) ("oldkey") = none :=
  ⟨by decide, by decide,
   (api_key_regeneration_spec
       [ApiKeyDoc.mk 7 ("oldkey") true, ApiKeyDoc.mk 5 ("otherkey") true]
       7 ("newkey") ("oldkey") (by decide) (by decide)).2.1⟩

end UptimeBot
